import Mathlib

/-!
Shallow embedding of the CHIP-8 emulator core in `src/src/chip8.rs`.

Machine words are modelled as `Nat` with explicit `% 2^w` where the Rust
code wraps (`wrapping_add`, `overflowing_add`, `overflowing_sub`, `<<`).
Rust panics (array indexing out of bounds, `panic!`, `unimplemented!`,
`expect`) are modelled as `Except.error`.  The register file, memory,
stack, graphics and keypad arrays are modelled as `Nat`-indexed tables;
indices produced by the 4-bit opcode fields are in range by construction,
exactly as in the source, while the keypad access in EX9E/EXA1 (indexed by
a register *value*) carries the explicit bounds check that Rust indexing
performs.

The pseudo-random opcode CXNN is not embedded: the source's dispatch
`match` has no `0xC000` arm, so `_opcode_CXNN` is unreachable from
`emulateCycle` and no claim concerns it.
-/

/-- Pointwise update of a `Nat`-indexed table, mirroring a Rust array store
`a[i] = v`. -/
def upd (f : Nat → Nat) (i v : Nat) : Nat → Nat := fun j => if j = i then v else f j

/-- Machine state: the fields of `struct Chip8` (the `rng` field is omitted,
see the module comment: the only instruction using it is unreachable from
the dispatch). -/
structure Chip8 where
  registers : Nat → Nat
  pc : Nat
  index : Nat
  timer_delay : Nat
  timer_sound : Nat
  memory : Nat → Nat
  stack : Nat → Nat
  sp : Nat
  graphics : Nat → Nat
  keypad : Nat → Nat

/-- `Chip8::new()`: all state zero, program counter at the 0x200 entry
offset. -/
def Chip8.new : Chip8 where
  registers := fun _ => 0
  pc := 0x200
  index := 0
  timer_delay := 0
  timer_sound := 0
  memory := fun _ => 0
  stack := fun _ => 0
  sp := 0
  graphics := fun _ => 0
  keypad := fun _ => 0

/-- `reg_x!`: bits [8:11] of the instruction word. -/
def reg_x (opcode : Nat) : Nat := opcode / 256 % 16

/-- `reg_y!`: bits [4:7] of the instruction word. -/
def reg_y (opcode : Nat) : Nat := opcode / 16 % 16

/-- `stack_push`: bounds-checked push; error on `sp >= stack.len()`. -/
def stack_push (s : Chip8) (address : Nat) : Except String Chip8 :=
  if 16 ≤ s.sp then .error "Stack overflow"
  else .ok { s with stack := upd s.stack s.sp address, sp := s.sp + 1 }

/-- `stack_pop`: bounds-checked pop; error on empty stack. -/
def stack_pop (s : Chip8) : Except String (Nat × Chip8) :=
  if s.sp = 0 then .error "Stack underflow"
  else .ok (s.stack (s.sp - 1), { s with sp := s.sp - 1 })

/-- 00E0: clear the screen. -/
def _opcode_00E0 (s : Chip8) : Chip8 := { s with graphics := fun _ => 0 }

/-- 00EE: return from subroutine (`pc = stack_pop()`). -/
def _opcode_00EE (s : Chip8) : Except String Chip8 :=
  match stack_pop s with
  | .error e => .error e
  | .ok (address, s1) => .ok { s1 with pc := address }

/-- 0NNN: diagnostic print only; no state change. -/
def _opcode_0NNN (s : Chip8) (_opcode : Nat) : Chip8 := s

/-- 1NNN: jump to address NNN. -/
def _opcode_1NNN (s : Chip8) (opcode : Nat) : Chip8 := { s with pc := opcode % 4096 }

/-- 2NNN: push the (already advanced) pc, then jump to NNN. -/
def _opcode_2NNN (s : Chip8) (opcode : Nat) : Except String Chip8 :=
  match stack_push s s.pc with
  | .error e => .error e
  | .ok s1 => .ok { s1 with pc := opcode % 4096 }

/-- 3XNN: skip next instruction if VX = NN. -/
def _opcode_3XNN (s : Chip8) (opcode : Nat) : Chip8 :=
  if s.registers (reg_x opcode) = opcode % 256 then { s with pc := s.pc + 2 } else s

/-- 4XNN: skip next instruction if VX ≠ NN. -/
def _opcode_4XNN (s : Chip8) (opcode : Nat) : Chip8 :=
  if s.registers (reg_x opcode) ≠ opcode % 256 then { s with pc := s.pc + 2 } else s

/-- 5XY0: skip next instruction if VX = VY. -/
def _opcode_5XY0 (s : Chip8) (opcode : Nat) : Chip8 :=
  if s.registers (reg_x opcode) = s.registers (reg_y opcode) then { s with pc := s.pc + 2 }
  else s

/-- 6XNN: store NN in VX. -/
def _opcode_6XNN (s : Chip8) (opcode : Nat) : Chip8 :=
  { s with registers := upd s.registers (reg_x opcode) (opcode % 256) }

/-- 7XNN: VX := VX + NN with 8-bit wraparound (`wrapping_add`), no flag. -/
def _opcode_7XNN (s : Chip8) (opcode : Nat) : Chip8 :=
  let x := reg_x opcode
  { s with registers := upd s.registers x ((s.registers x + opcode % 256) % 256) }

/-- 8XY0: VX := VY. -/
def _opcode_8XY0 (s : Chip8) (opcode : Nat) : Chip8 :=
  { s with registers := upd s.registers (reg_x opcode) (s.registers (reg_y opcode)) }

/-- 8XY1: VX := VX OR VY. -/
def _opcode_8XY1 (s : Chip8) (opcode : Nat) : Chip8 :=
  let x := reg_x opcode
  let y := reg_y opcode
  { s with registers := upd s.registers x (Nat.lor (s.registers x) (s.registers y)) }

/-- 8XY2: VX := VX AND VY. -/
def _opcode_8XY2 (s : Chip8) (opcode : Nat) : Chip8 :=
  let x := reg_x opcode
  let y := reg_y opcode
  { s with registers := upd s.registers x (Nat.land (s.registers x) (s.registers y)) }

/-- 8XY3: VX := VX XOR VY. -/
def _opcode_8XY3 (s : Chip8) (opcode : Nat) : Chip8 :=
  let x := reg_x opcode
  let y := reg_y opcode
  { s with registers := upd s.registers x (Nat.xor (s.registers x) (s.registers y)) }

/-- 8XY4: VX := VX + VY (`overflowing_add`); then VF := 1 on carry else 0. -/
def _opcode_8XY4 (s : Chip8) (opcode : Nat) : Chip8 :=
  let x := reg_x opcode
  let y := reg_y opcode
  let sum := s.registers x + s.registers y
  { s with registers := upd (upd s.registers x (sum % 256)) 15 (if 256 ≤ sum then 1 else 0) }

/-- 8XY5: VX := VX - VY (`overflowing_sub`); then VF := 1 on borrow else 0. -/
def _opcode_8XY5 (s : Chip8) (opcode : Nat) : Chip8 :=
  let x := reg_x opcode
  let y := reg_y opcode
  let result := (s.registers x + 256 - s.registers y) % 256
  let flag : Nat := if s.registers x < s.registers y then 1 else 0
  { s with registers := upd (upd s.registers x result) 15 flag }

/-- 8XY6: VF := bit 0 of VY, then VX := VY >> 1 (the source writes VF before
reading VY, so the embedding reads the updated file). -/
def _opcode_8XY6 (s : Chip8) (opcode : Nat) : Chip8 :=
  let x := reg_x opcode
  let y := reg_y opcode
  let r1 := upd s.registers 15 (s.registers y % 2)
  { s with registers := upd r1 x (r1 y / 2) }

/-- 8XY7: VX := VY - VX (`overflowing_sub`); then VF := 1 on borrow else 0. -/
def _opcode_8XY7 (s : Chip8) (opcode : Nat) : Chip8 :=
  let x := reg_x opcode
  let y := reg_y opcode
  let result := (s.registers y + 256 - s.registers x) % 256
  let flag : Nat := if s.registers y < s.registers x then 1 else 0
  { s with registers := upd (upd s.registers x result) 15 flag }

/-- 8XYE: VF := bit 7 of VY, then VX := VY << 1 truncated to 8 bits (the
source writes VF before reading VY). -/
def _opcode_8XYE (s : Chip8) (opcode : Nat) : Chip8 :=
  let x := reg_x opcode
  let y := reg_y opcode
  let r1 := upd s.registers 15 (s.registers y / 128 % 2)
  { s with registers := upd r1 x (r1 y * 2 % 256) }

/-- 9XY0: skip next instruction if VX ≠ VY.  NOTE: this handler exists in
the source but the dispatch `match` in `emulateCycle` has no `0x9000` arm,
so it is never called. -/
def _opcode_9XY0 (s : Chip8) (opcode : Nat) : Chip8 :=
  if s.registers (reg_x opcode) ≠ s.registers (reg_y opcode) then { s with pc := s.pc + 2 }
  else s

/-- ANNN: index := NNN. -/
def _opcode_ANNN (s : Chip8) (opcode : Nat) : Chip8 :=
  { s with index := opcode % 4096 }

/-- BNNN: jump to NNN + V0; fatal (`SEGFAULT` panic) when the `checked_add`
overflows u16 or the sum exceeds `MAX_ADDRESS` (0xFFF). -/
def _opcode_BNNN (s : Chip8) (opcode : Nat) : Except String Chip8 :=
  let address := opcode % 4096
  let sum := address + s.registers 0
  if sum ≤ 65535 then
    if sum ≤ 4095 then .ok { s with pc := sum }
    else .error "SEGFAULT: Trying to access invalid address"
  else .error "SEGFAULT: Trying to access invalid address"

/-- DXYN: draw sprite.  The source body is `unimplemented!()`. -/
def _opcode_DXYN (_s : Chip8) (_opcode : Nat) : Except String Chip8 :=
  .error "not implemented"

/-- EX9E: skip next instruction if the key with number VX is pressed.  The
keypad is indexed by the register *value*, so Rust's bounds check (panic on
index ≥ 16) is explicit here. -/
def _opcode_EX9E (s : Chip8) (opcode : Nat) : Except String Chip8 :=
  let value := s.registers (reg_x opcode)
  if value < 16 then
    if s.keypad value = 1 then .ok { s with pc := s.pc + 2 } else .ok s
  else .error "index out of bounds"

/-- EXA1: skip next instruction if the key with number VX is NOT pressed. -/
def _opcode_EXA1 (s : Chip8) (opcode : Nat) : Except String Chip8 :=
  let value := s.registers (reg_x opcode)
  if value < 16 then
    if s.keypad value = 0 then .ok { s with pc := s.pc + 2 } else .ok s
  else .error "index out of bounds"

/-- FX07: VX := delay timer. -/
def _opcode_FX07 (s : Chip8) (opcode : Nat) : Chip8 :=
  { s with registers := upd s.registers (reg_x opcode) s.timer_delay }

/-- FX0A: wait for a keypress.  The source iterates `keypad.iter().find(k == 1)`
and stores the found *value* into VX; with no key pressed it rolls the pc
back by 2 so the instruction re-executes next cycle. -/
def _opcode_FX0A (s : Chip8) (opcode : Nat) : Chip8 :=
  match (List.range 16).find? (fun i => s.keypad i == 1) with
  | some i => { s with registers := upd s.registers (reg_x opcode) (s.keypad i) }
  | none => { s with pc := s.pc - 2 }

/-- FX18: sound timer := VX. -/
def _opcode_FX18 (s : Chip8) (opcode : Nat) : Chip8 :=
  { s with timer_sound := s.registers (reg_x opcode) }

/-- FX1E: index := index + VX with 16-bit wraparound (`wrapping_add`). -/
def _opcode_FX1E (s : Chip8) (opcode : Nat) : Chip8 :=
  { s with index := (s.index + s.registers (reg_x opcode)) % 65536 }

/-- FX29: index := glyph address of the digit in VX (5 bytes per glyph). -/
def _opcode_FX29 (s : Chip8) (opcode : Nat) : Chip8 :=
  { s with index := s.registers (reg_x opcode) * 5 % 65536 }

/-- FX33: binary-coded decimal.  After the bounds check the loop body is
`unimplemented!()`, so every in-bounds call also errors. -/
def _opcode_FX33 (s : Chip8) (_opcode : Nat) : Except String Chip8 :=
  if 4093 < s.index then
    .error "Opcode FX33: Not enough memory left! Index would write out-of-bound."
  else .error "not implemented"

/-- FX65: register block load.  The source body is `unimplemented!()` and the
dispatch never calls it (its arm is an empty block). -/
def _opcode_FX65 (_s : Chip8) (_opcode : Nat) : Except String Chip8 :=
  .error "not implemented"

/-- `emulateCycle`: fetch the big-endian instruction word at `pc` (Rust
indexing: fatal when `pc + 1` is outside the 4096-byte memory), advance `pc`
by 2, then dispatch exactly as the source's nested `match`:
* there is no `0x9000` and no `0xC000` arm (both fall to `Unknown opcode`);
* the `0xF015` arm calls `_opcode_FX0A`, not a delay-timer write;
* the `0xF065` arm is an empty block (no handler call). -/
def emulateCycle (s : Chip8) : Except String Chip8 :=
  if s.pc + 1 < 4096 then
    let opcode : Nat := s.memory s.pc * 256 + s.memory (s.pc + 1)
    let s1 : Chip8 := { s with pc := s.pc + 2 }
    if opcode / 4096 = 0x0 then
      if opcode = 0x00E0 then .ok (_opcode_00E0 s1)
      else if opcode = 0x00EE then _opcode_00EE s1
      else .ok (_opcode_0NNN s1 opcode)
    else if opcode / 4096 = 0x1 then .ok (_opcode_1NNN s1 opcode)
    else if opcode / 4096 = 0x2 then _opcode_2NNN s1 opcode
    else if opcode / 4096 = 0x3 then .ok (_opcode_3XNN s1 opcode)
    else if opcode / 4096 = 0x4 then .ok (_opcode_4XNN s1 opcode)
    else if opcode / 4096 = 0x5 then .ok (_opcode_5XY0 s1 opcode)
    else if opcode / 4096 = 0x6 then .ok (_opcode_6XNN s1 opcode)
    else if opcode / 4096 = 0x7 then .ok (_opcode_7XNN s1 opcode)
    else if opcode / 4096 = 0x8 then
      if opcode % 16 = 0x0 then .ok (_opcode_8XY0 s1 opcode)
      else if opcode % 16 = 0x1 then .ok (_opcode_8XY1 s1 opcode)
      else if opcode % 16 = 0x2 then .ok (_opcode_8XY2 s1 opcode)
      else if opcode % 16 = 0x3 then .ok (_opcode_8XY3 s1 opcode)
      else if opcode % 16 = 0x4 then .ok (_opcode_8XY4 s1 opcode)
      else if opcode % 16 = 0x5 then .ok (_opcode_8XY5 s1 opcode)
      else if opcode % 16 = 0x6 then .ok (_opcode_8XY6 s1 opcode)
      else if opcode % 16 = 0x7 then .ok (_opcode_8XY7 s1 opcode)
      else if opcode % 16 = 0xE then .ok (_opcode_8XYE s1 opcode)
      else .error "Unknown opcode"
    else if opcode / 4096 = 0xA then .ok (_opcode_ANNN s1 opcode)
    else if opcode / 4096 = 0xB then _opcode_BNNN s1 opcode
    else if opcode / 4096 = 0xD then _opcode_DXYN s1 opcode
    else if opcode / 4096 = 0xE then
      if opcode % 256 = 0x9E then _opcode_EX9E s1 opcode
      else if opcode % 256 = 0xA1 then _opcode_EXA1 s1 opcode
      else .error "Unknown opcode"
    else if opcode / 4096 = 0xF then
      if opcode % 256 = 0x07 then .ok (_opcode_FX07 s1 opcode)
      else if opcode % 256 = 0x0A then .ok (_opcode_FX0A s1 opcode)
      else if opcode % 256 = 0x15 then .ok (_opcode_FX0A s1 opcode)
      else if opcode % 256 = 0x18 then .ok (_opcode_FX18 s1 opcode)
      else if opcode % 256 = 0x1E then .ok (_opcode_FX1E s1 opcode)
      else if opcode % 256 = 0x29 then .ok (_opcode_FX29 s1 opcode)
      else if opcode % 256 = 0x33 then _opcode_FX33 s1 opcode
      else if opcode % 256 = 0x65 then .ok s1
      else .error "Unknown opcode"
    else .error "Unknown opcode"
  else .error "index out of bounds"

/-! Concrete machine states used by the per-claim evaluations. -/

/-- State with V0 = 5 and V1 = 3. -/
def c1state : Chip8 :=
  { Chip8.new with registers := fun i => if i = 0 then 5 else if i = 1 then 3 else 0 }

/-- State with V0 = 5 and the instruction F015 loaded at 0x200; no key
pressed. -/
def c2state : Chip8 :=
  { Chip8.new with
    registers := fun i => if i = 0 then 5 else 0
    memory := fun a => if a = 512 then 0xF0 else if a = 513 then 0x15 else 0 }

/-- State with only key 5 pressed and the instruction F30A loaded at 0x200. -/
def c3state : Chip8 :=
  { Chip8.new with
    memory := fun a => if a = 512 then 0xF3 else if a = 513 then 0x0A else 0
    keypad := fun i => if i = 5 then 1 else 0 }

/-- State with V0 = 0 ≠ V1 = 1 and the instruction 9010 loaded at 0x200. -/
def c4state : Chip8 :=
  { Chip8.new with
    registers := fun i => if i = 1 then 1 else 0
    memory := fun a => if a = 512 then 0x90 else if a = 513 then 0x10 else 0 }

/-- State with index = 0x300, memory 7, 8, 9 at 0x300..0x302, all registers
zero, and the instruction F265 loaded at 0x200. -/
def c5state : Chip8 :=
  { Chip8.new with
    index := 768
    memory := fun a =>
      if a = 512 then 0xF2 else if a = 513 then 0x65
      else if a = 768 then 7 else if a = 769 then 8 else if a = 770 then 9 else 0 }

/-- State with the instruction D015 loaded at 0x200. -/
def c6state : Chip8 :=
  { Chip8.new with
    memory := fun a => if a = 512 then 0xD0 else if a = 513 then 0x15 else 0 }

/-- State with V15 = 200. -/
def c7state : Chip8 :=
  { Chip8.new with registers := fun i => if i = 15 then 200 else 0 }

/-- State with the call 2300 at 0x200 and the return 00EE at 0x300. -/
def c9state : Chip8 :=
  { Chip8.new with
    memory := fun a => if a = 512 then 0x23 else if a = 769 then 0xEE else 0 }

/-! Claim theorems. -/

/-- Claim C1, counterexample: with V0 = 5 and V1 = 3 the subtraction 8015
does not borrow (3 ≤ 5), so the claim demands a flags value of 1; the code
stores the correct difference 2 but sets the flags register to 0. -/
theorem C1_counterexample :
    3 ≤ c1state.registers 0 ∧
    (_opcode_8XY5 c1state 0x8015).registers 0 = 2 ∧
    (_opcode_8XY5 c1state 0x8015).registers 15 ≠ 1 := by decide

/-- Claim C1, amended: for every pair of register indices and 8-bit register
values, each subtraction instruction stores (minuend - subtrahend) mod 256
into register X and then sets the flags register (register 15) to 1 if the
subtraction DID borrow (minuend < subtrahend) and to 0 if it did not, the
same convention for both instructions; the flag write comes last, so for
X = 15 it overrides the stored difference. -/
theorem C1_subtract_borrow (s : Chip8) (X Y : Nat) (hX : X < 16) (hY : Y < 16)
    (hx : s.registers X < 256) (hy : s.registers Y < 256) :
    (_opcode_8XY5 s (0x8000 + X * 256 + Y * 16 + 5)).registers =
      upd (upd s.registers X (((s.registers X : Int) - (s.registers Y : Int)) % 256).toNat)
        15 (if s.registers X < s.registers Y then 1 else 0) ∧
    (_opcode_8XY7 s (0x8000 + X * 256 + Y * 16 + 7)).registers =
      upd (upd s.registers X (((s.registers Y : Int) - (s.registers X : Int)) % 256).toNat)
        15 (if s.registers Y < s.registers X then 1 else 0) := by
  have hrx5 : reg_x (0x8000 + X * 256 + Y * 16 + 5) = X := by unfold reg_x; omega
  have hry5 : reg_y (0x8000 + X * 256 + Y * 16 + 5) = Y := by unfold reg_y; omega
  have hrx7 : reg_x (0x8000 + X * 256 + Y * 16 + 7) = X := by unfold reg_x; omega
  have hry7 : reg_y (0x8000 + X * 256 + Y * 16 + 7) = Y := by unfold reg_y; omega
  have hval1 : (s.registers X + 256 - s.registers Y) % 256
      = (((s.registers X : Int) - (s.registers Y : Int)) % 256).toNat := by omega
  have hval2 : (s.registers Y + 256 - s.registers X) % 256
      = (((s.registers Y : Int) - (s.registers X : Int)) % 256).toNat := by omega
  constructor
  · simp only [_opcode_8XY5, hrx5, hry5, hval1]
  · simp only [_opcode_8XY7, hrx7, hry7, hval2]

/-- Claim C1, witness: the amended theorem applied at V0 = 5, V1 = 3. -/
theorem C1_witness :
    c1state.registers 0 < 256 ∧ c1state.registers 1 < 256 ∧
    ((_opcode_8XY5 c1state (0x8000 + 0 * 256 + 1 * 16 + 5)).registers =
      upd (upd c1state.registers 0
          (((c1state.registers 0 : Int) - (c1state.registers 1 : Int)) % 256).toNat)
        15 (if c1state.registers 0 < c1state.registers 1 then 1 else 0) ∧
    (_opcode_8XY7 c1state (0x8000 + 0 * 256 + 1 * 16 + 7)).registers =
      upd (upd c1state.registers 0
          (((c1state.registers 1 : Int) - (c1state.registers 0 : Int)) % 256).toNat)
        15 (if c1state.registers 1 < c1state.registers 0 then 1 else 0)) :=
  ⟨by decide, by decide,
    C1_subtract_borrow c1state 0 1 (by decide) (by decide) (by decide) (by decide)⟩

/-- Claim C2: the set-delay-timer instruction F015 should copy VX into the
delay timer and advance pc by 2.  The source dispatch routes 0xF015 to
`_opcode_FX0A` (the blocking key wait), so with V0 = 5 and no key pressed
the delay timer stays 0 and the pc is rolled back to the instruction
itself. -/
theorem C2_delay_timer_bug :
    c2state.registers 0 = 5 ∧ c2state.memory 512 = 0xF0 ∧ c2state.memory 513 = 0x15 ∧
    (emulateCycle c2state).map (fun t => (t.timer_delay, t.pc)) = .ok (0, 512) :=
  ⟨rfl, rfl, rfl, rfl⟩

/-- Claim C3: the key-wait instruction F30A should store the pressed key's
index into V3.  With exactly key 5 pressed, the source's
`keypad.iter().find(k == 1)` yields the cell *value* 1, so V3 receives 1
instead of the index 5 (the pc does advance normally once a key is seen). -/
theorem C3_key_wait_bug :
    (List.range 16).map c3state.keypad = [0, 0, 0, 0, 0, 1, 0, 0, 0, 0, 0, 0, 0, 0, 0, 0] ∧
    c3state.memory 512 = 0xF3 ∧ c3state.memory 513 = 0x0A ∧
    (emulateCycle c3state).map (fun t => (t.registers 3, t.pc)) = .ok (1, 514) :=
  ⟨rfl, rfl, rfl, rfl⟩

/-- Claim C4: fetching 9010 with V0 = 0 ≠ V1 = 1 should skip (net pc +4)
without a decode error.  The dispatch `match` in the source has no `0x9000`
arm — `_opcode_9XY0` exists but is unreachable — so the cycle dies with the
fatal `Unknown opcode` panic. -/
theorem C4_skip_dispatch_bug :
    c4state.registers 0 ≠ c4state.registers 1 ∧
    c4state.memory 512 = 0x90 ∧ c4state.memory 513 = 0x10 ∧
    emulateCycle c4state = .error "Unknown opcode" :=
  ⟨by decide, rfl, rfl, rfl⟩

/-- Claim C5: executing F265 with index = 0x300 and memory 7, 8, 9 at
0x300.. should load V0..V2 with 7, 8, 9.  The source's `0x65` dispatch arm
is an empty block (and `_opcode_FX65` is `unimplemented!()` and never
called), so the registers stay 0 and only the pc advances. -/
theorem C5_block_load_bug :
    c5state.index = 768 ∧ c5state.memory 768 = 7 ∧ c5state.memory 769 = 8 ∧
    c5state.memory 770 = 9 ∧
    (emulateCycle c5state).map
      (fun t => (t.registers 0, t.registers 1, t.registers 2, t.pc)) = .ok (0, 0, 0, 514) :=
  ⟨rfl, rfl, rfl, rfl, rfl⟩

/-- Claim C6: the sprite-draw instruction D015 should XOR sprite rows onto
the display and set the collision flag.  The source body of `_opcode_DXYN`
is `unimplemented!()`, so every draw is a fatal panic. -/
theorem C6_sprite_draw_bug :
    c6state.memory 512 = 0xD0 ∧ c6state.memory 513 = 0x15 ∧
    emulateCycle c6state = .error "not implemented" :=
  ⟨rfl, rfl, rfl⟩

/-- Claim C7, counterexample: with X = Y = 15 and V15 = 200 the sum 400
exceeds 255, and the claim demands that register X (= 15) hold
400 mod 256 = 144; the code's final flag write leaves register 15 = 1. -/
theorem C7_counterexample :
    256 ≤ c7state.registers 15 + c7state.registers 15 ∧
    (_opcode_8XY4 c7state 0x8FF4).registers 15 ≠
      (c7state.registers 15 + c7state.registers 15) % 256 := by decide

/-- Claim C7, amended: for every pair of register indices and 8-bit register
values, add-with-carry stores (X + Y) mod 256 into register X and then sets
the flags register to 1 iff the unsigned sum is at least 256; the flag
write comes last, so for X = 15 it overrides the stored sum. -/
theorem C7_add_carry (s : Chip8) (X Y : Nat) (hX : X < 16) (hY : Y < 16)
    (_hx : s.registers X < 256) (_hy : s.registers Y < 256) :
    (_opcode_8XY4 s (0x8000 + X * 256 + Y * 16 + 4)).registers =
      upd (upd s.registers X ((s.registers X + s.registers Y) % 256)) 15
        (if 256 ≤ s.registers X + s.registers Y then 1 else 0) ∧
    ((_opcode_8XY4 s (0x8000 + X * 256 + Y * 16 + 4)).registers 15 = 1 ↔
      256 ≤ s.registers X + s.registers Y) := by
  have hrx : reg_x (0x8000 + X * 256 + Y * 16 + 4) = X := by unfold reg_x; omega
  have hry : reg_y (0x8000 + X * 256 + Y * 16 + 4) = Y := by unfold reg_y; omega
  have h1 : (_opcode_8XY4 s (0x8000 + X * 256 + Y * 16 + 4)).registers =
      upd (upd s.registers X ((s.registers X + s.registers Y) % 256)) 15
        (if 256 ≤ s.registers X + s.registers Y then 1 else 0) := by
    simp only [_opcode_8XY4, hrx, hry]
  refine ⟨h1, ?_⟩
  rw [h1]
  simp only [upd, if_pos rfl]
  split <;> simp_all

/-- Claim C7, witness: the amended theorem applied at V0 = 5, V1 = 3. -/
theorem C7_witness :
    c1state.registers 0 < 256 ∧ c1state.registers 1 < 256 ∧
    ((_opcode_8XY4 c1state (0x8000 + 0 * 256 + 1 * 16 + 4)).registers =
      upd (upd c1state.registers 0 ((c1state.registers 0 + c1state.registers 1) % 256)) 15
        (if 256 ≤ c1state.registers 0 + c1state.registers 1 then 1 else 0) ∧
    ((_opcode_8XY4 c1state (0x8000 + 0 * 256 + 1 * 16 + 4)).registers 15 = 1 ↔
      256 ≤ c1state.registers 0 + c1state.registers 1)) :=
  ⟨by decide, by decide,
    C7_add_carry c1state 0 1 (by decide) (by decide) (by decide) (by decide)⟩

/-- Claim C8: for every state with an 8-bit V0 and every 12-bit immediate,
the jump-with-offset BNNN is fatal exactly when NNN + V0 exceeds the 12-bit
address space, and otherwise sets pc to NNN + V0. -/
theorem C8_jump_offset (s : Chip8) (nnn : Nat) (hn : nnn < 4096)
    (h0 : s.registers 0 < 256) :
    (4095 < nnn + s.registers 0 →
      _opcode_BNNN s (0xB000 + nnn) = .error "SEGFAULT: Trying to access invalid address") ∧
    (nnn + s.registers 0 ≤ 4095 →
      _opcode_BNNN s (0xB000 + nnn) = .ok { s with pc := nnn + s.registers 0 }) := by
  have haddr : (0xB000 + nnn) % 4096 = nnn := by omega
  constructor
  · intro h
    simp only [_opcode_BNNN, haddr]
    rw [if_pos (by omega), if_neg (by omega)]
  · intro h
    simp only [_opcode_BNNN, haddr]
    rw [if_pos (by omega), if_pos (by omega)]

/-- Claim C8, witness: the theorem applied at the fresh state (V0 = 0) with
target 0x300, giving the in-range jump branch. -/
theorem C8_witness :
    (768 : Nat) < 4096 ∧ Chip8.new.registers 0 < 256 ∧
    ((4095 < 768 + Chip8.new.registers 0 →
      _opcode_BNNN Chip8.new (0xB000 + 768) =
        .error "SEGFAULT: Trying to access invalid address") ∧
    (768 + Chip8.new.registers 0 ≤ 4095 →
      _opcode_BNNN Chip8.new (0xB000 + 768) =
        .ok { Chip8.new with pc := 768 + Chip8.new.registers 0 })) :=
  ⟨by decide, by decide, C8_jump_offset Chip8.new 768 (by decide) (by decide)⟩

/-- Claim C9: with the stack pointer strictly below capacity, a cycle
executing the call 2NNN followed by a cycle executing the return 00EE at
NNN restores pc to the call site plus 2 and restores the stack pointer to
its pre-call value. -/
theorem C9_call_return (s : Chip8) (nnn : Nat)
    (hsp : s.sp < 16) (hpc : s.pc + 1 < 4096) (hnnn : nnn + 1 < 4096)
    (hb0 : s.memory s.pc = 0x20 + nnn / 256) (hb1 : s.memory (s.pc + 1) = nnn % 256)
    (hr0 : s.memory nnn = 0x00) (hr1 : s.memory (nnn + 1) = 0xEE) :
    ∃ s2 : Chip8, (emulateCycle s).bind emulateCycle = .ok s2 ∧
      s2.pc = s.pc + 2 ∧ s2.sp = s.sp := by
  have h1 : emulateCycle s =
      .ok { s with pc := nnn, stack := upd s.stack s.sp (s.pc + 2), sp := s.sp + 1 } := by
    have hop : s.memory s.pc * 256 + s.memory (s.pc + 1) = 8192 + nnn := by
      rw [hb0, hb1]; omega
    have hd2 : (8192 + nnn) / 4096 = 2 := by omega
    have hm2 : (8192 + nnn) % 4096 = nnn := by omega
    have hspF : ¬ (16 ≤ s.sp) := by omega
    unfold emulateCycle
    rw [if_pos hpc]
    simp only [hop, hd2, hm2]
    norm_num
    unfold _opcode_2NNN stack_push
    rw [if_neg hspF]
    simp [hm2]
  have h2 : emulateCycle
        { s with pc := nnn, stack := upd s.stack s.sp (s.pc + 2), sp := s.sp + 1 } =
      .ok { s with pc := s.pc + 2, stack := upd s.stack s.sp (s.pc + 2), sp := s.sp } := by
    have hop2 : s.memory nnn * 256 + s.memory (nnn + 1) = 238 := by
      rw [hr0, hr1]
    unfold emulateCycle
    rw [if_pos (show nnn + 1 < 4096 from hnnn)]
    simp only [hop2]
    norm_num
    unfold _opcode_00EE stack_pop
    rw [if_neg (show ¬ (s.sp + 1 = 0) by omega)]
    simp [upd]
  refine ⟨{ s with pc := s.pc + 2, stack := upd s.stack s.sp (s.pc + 2), sp := s.sp },
    ?_, rfl, rfl⟩
  rw [h1]
  simpa [Except.bind] using h2

/-- Claim C9, witness: the theorem applied to the state holding the call
2300 at 0x200 and the return 00EE at 0x300. -/
theorem C9_witness :
    c9state.sp < 16 ∧ c9state.pc + 1 < 4096 ∧ (768 : Nat) + 1 < 4096 ∧
    c9state.memory c9state.pc = 0x20 + 768 / 256 ∧
    c9state.memory (c9state.pc + 1) = 768 % 256 ∧
    c9state.memory 768 = 0x00 ∧ c9state.memory (768 + 1) = 0xEE ∧
    (∃ s2 : Chip8, (emulateCycle c9state).bind emulateCycle = .ok s2 ∧
      s2.pc = c9state.pc + 2 ∧ s2.sp = c9state.sp) :=
  ⟨by decide, by decide, by decide, by decide, by decide, by decide, by decide,
    C9_call_return c9state 768 (by decide) (by decide) (by decide) (by decide)
      (by decide) (by decide) (by decide)⟩

/-- Claim C10: under the precondition VX ≤ 15 the keypad access of EX9E and
EXA1 is in bounds and the pc gains an additional 2 exactly when the keypad
flag at index VX is 1 (EX9E) respectively 0 (EXA1); when VX exceeds 15 the
keypad index is out of range and the access is a fatal error. -/
theorem C10_keypad_skip (s : Chip8) (X : Nat) (hX : X < 16) :
    (s.registers X ≤ 15 →
      _opcode_EX9E s (0xE09E + X * 256) =
        .ok { s with pc := if s.keypad (s.registers X) = 1 then s.pc + 2 else s.pc } ∧
      _opcode_EXA1 s (0xE0A1 + X * 256) =
        .ok { s with pc := if s.keypad (s.registers X) = 0 then s.pc + 2 else s.pc }) ∧
    (15 < s.registers X →
      _opcode_EX9E s (0xE09E + X * 256) = .error "index out of bounds" ∧
      _opcode_EXA1 s (0xE0A1 + X * 256) = .error "index out of bounds") := by
  have hrx1 : reg_x (0xE09E + X * 256) = X := by unfold reg_x; omega
  have hrx2 : reg_x (0xE0A1 + X * 256) = X := by unfold reg_x; omega
  constructor
  · intro h
    constructor
    · simp only [_opcode_EX9E, hrx1]
      rw [if_pos (by omega)]
      split
      · rfl
      · rfl
    · simp only [_opcode_EXA1, hrx2]
      rw [if_pos (by omega)]
      split
      · rfl
      · rfl
  · intro h
    constructor
    · simp only [_opcode_EX9E, hrx1]
      rw [if_neg (by omega)]
    · simp only [_opcode_EXA1, hrx2]
      rw [if_neg (by omega)]

/-- Claim C10, witness: the theorem applied at the fresh state (V0 = 0, no
key pressed), giving the in-bounds branch. -/
theorem C10_witness :
    (0 : Nat) < 16 ∧
    ((Chip8.new.registers 0 ≤ 15 →
      _opcode_EX9E Chip8.new (0xE09E + 0 * 256) =
        .ok { Chip8.new with
          pc := if Chip8.new.keypad (Chip8.new.registers 0) = 1
            then Chip8.new.pc + 2 else Chip8.new.pc } ∧
      _opcode_EXA1 Chip8.new (0xE0A1 + 0 * 256) =
        .ok { Chip8.new with
          pc := if Chip8.new.keypad (Chip8.new.registers 0) = 0
            then Chip8.new.pc + 2 else Chip8.new.pc }) ∧
    (15 < Chip8.new.registers 0 →
      _opcode_EX9E Chip8.new (0xE09E + 0 * 256) = .error "index out of bounds" ∧
      _opcode_EXA1 Chip8.new (0xE0A1 + 0 * 256) = .error "index out of bounds")) :=
  ⟨by decide, C10_keypad_skip Chip8.new 0 (by decide)⟩
